import Mathlib

/-!
Verification of the LakeXpress MCP adapter core: the request-validation,
command-construction, and version/capability-resolution engine.

The definitions below are a shallow embedding of `src/version.py`,
`src/validators.py` and `src/lakexpress.py`: Python dataclasses and
pydantic models become Lean structures, the regex-based version parser
becomes an explicit leftmost search over character lists, and the
command builders become pure functions from validated parameters to
token lists.  Pydantic validation semantics (collection of field
errors, sequential short-circuiting of `mode="after"` model
validators, error locations for nested models) are modelled
explicitly where a claim depends on them.
-/

set_option maxRecDepth 4000

/-! ## Version model (src/version.py, LakeXpressVersion) -/

/-- `LakeXpressVersion` from src/version.py: a frozen dataclass holding the
(major, minor, patch) triple. -/
structure LakeXpressVersion where
  major : Nat
  minor : Nat
  patch : Nat
deriving DecidableEq, Repr

/-- Strict ordering of versions: Python compares `self._tuple < other._tuple`,
the lexicographic order on (major, minor, patch). -/
def vlt (a b : LakeXpressVersion) : Bool :=
  Nat.blt a.major b.major ||
    (a.major == b.major &&
      (Nat.blt a.minor b.minor ||
        (a.minor == b.minor && Nat.blt a.patch b.patch)))

/-- Non-strict ordering: `functools.total_ordering` derives `<=` from
`__lt__` and `__eq__` (equality of the component tuples). -/
def vle (a b : LakeXpressVersion) : Bool :=
  vlt a b || (a.major == b.major && a.minor == b.minor && a.patch == b.patch)

theorem vle_iff (a b : LakeXpressVersion) :
    vle a b = true ↔
      (a.major < b.major ∨
        (a.major = b.major ∧
          (a.minor < b.minor ∨ (a.minor = b.minor ∧ a.patch < b.patch))) ∨
        (a.major = b.major ∧ a.minor = b.minor ∧ a.patch = b.patch)) := by
  simp [vle, vlt, Nat.blt_eq, Bool.or_eq_true, Bool.and_eq_true, beq_iff_eq]
  tauto

theorem vle_trans {a b c : LakeXpressVersion}
    (hab : vle a b = true) (hbc : vle b c = true) : vle a c = true := by
  rw [vle_iff] at hab hbc ⊢
  rcases hab with h | ⟨h1, h2⟩ | ⟨h1, h2, h3⟩ <;>
    rcases hbc with g | ⟨g1, g2⟩ | ⟨g1, g2, g3⟩ <;>
      first
        | (left; omega)
        | (right; left; constructor <;> omega)
        | (right; right; omega)

/-! ## Version parsing (src/version.py, LakeXpressVersion.parse)

`parse` strips the input and applies `re.search(r"(\d+)\.(\d+)\.(\d+)", s)`:
the leftmost occurrence of three non-empty digit runs separated by dots.
`matchTriple` is the anchored match of the pattern at the head of the
character list (each `\d+` is a maximal digit run, per greedy matching with
backtracking exhausted against the following literal dot); `searchTriple`
tries every start position left to right. -/

/-- Numeric value of a digit run, as `int()` of the matched group. -/
def digitsToNat (ds : List Char) : Nat :=
  ds.foldl (fun n c => 10 * n + (c.toNat - '0'.toNat)) 0

/-- Anchored match of `(\d+)\.(\d+)\.(\d+)` at the start of `l`. -/
def matchTriple (l : List Char) : Option (Nat × Nat × Nat) :=
  let d1 := l.takeWhile Char.isDigit
  let r1 := l.dropWhile Char.isDigit
  if d1.isEmpty then none
  else
    match r1 with
    | '.' :: r2 =>
      let d2 := r2.takeWhile Char.isDigit
      let r3 := r2.dropWhile Char.isDigit
      if d2.isEmpty then none
      else
        match r3 with
        | '.' :: r4 =>
          let d3 := r4.takeWhile Char.isDigit
          if d3.isEmpty then none
          else some (digitsToNat d1, digitsToNat d2, digitsToNat d3)
        | _ => none
    | _ => none

/-- Leftmost search: `re.search` tries each start position left to right. -/
def searchTriple : List Char → Option (Nat × Nat × Nat)
  | [] => none
  | c :: rest =>
    match matchTriple (c :: rest) with
    | some t => some t
    | none => searchTriple rest

/-- Python `str.strip()`: remove leading and trailing whitespace. -/
def pyStrip (l : List Char) : List Char :=
  ((l.dropWhile Char.isWhitespace).reverse.dropWhile Char.isWhitespace).reverse

/-- `LakeXpressVersion.parse` from src/version.py: search the stripped input
for the first `digits.digits.digits` occurrence, or raise `ValueError`. -/
def LakeXpressVersion.parse (s : String) : Except String LakeXpressVersion :=
  match searchTriple (pyStrip s.data) with
  | some (a, b, c) => .ok ⟨a, b, c⟩
  | none => .error ("Cannot parse version from: " ++ s)

/-! ## Capability registry and resolver (src/version.py) -/

/-- `VersionCapabilities` from src/version.py.  The frozensets are embedded
as lists of the same identifiers, in source order. -/
structure VersionCapabilities where
  source_databases : List String
  log_databases : List String
  storage_backends : List String
  publish_targets : List String
  compression_types : List String
  commands : List String
  supports_no_banner : Bool := false
  supports_version_flag : Bool := false
  supports_incremental : Bool := false
  supports_cleanup : Bool := false
deriving DecidableEq, Repr

/-- The all-empty capability set returned for an empty registry. -/
def emptyCapabilities : VersionCapabilities :=
  { source_databases := []
    log_databases := []
    storage_backends := []
    publish_targets := []
    compression_types := []
    commands := []
    supports_no_banner := false
    supports_version_flag := false
    supports_incremental := false
    supports_cleanup := false }

/-- The registry entry for version 0.2.8 (`VERSION_REGISTRY["0.2.8"]`). -/
def caps_0_2_8 : VersionCapabilities :=
  { source_databases := ["sqlserver", "postgresql", "oracle", "mysql", "mariadb"]
    log_databases := ["sqlserver", "postgresql", "mysql", "mariadb", "sqlite", "duckdb"]
    storage_backends := ["local", "s3", "s3compatible", "gcs", "azure_adls", "onelake"]
    publish_targets :=
      ["snowflake", "databricks", "fabric", "bigquery", "motherduck", "glue", "ducklake"]
    compression_types := ["Zstd", "Snappy", "Gzip", "Lz4", "None"]
    commands :=
      ["logdb_init", "logdb_drop", "logdb_truncate", "logdb_locks",
       "logdb_release_locks", "config_create", "config_delete", "config_list",
       "sync", "sync_export", "sync_publish", "run", "status", "cleanup"]
    supports_no_banner := true
    supports_version_flag := true
    supports_incremental := true
    supports_cleanup := true }

/-- A registry entry, as in `_SORTED_VERSIONS`: a (version, capabilities)
pair. -/
abbrev RegistryEntry := LakeXpressVersion × VersionCapabilities

/-- `_SORTED_VERSIONS` built from `VERSION_REGISTRY` (a single entry). -/
def sortedVersions : List RegistryEntry := [(⟨0, 2, 8⟩, caps_0_2_8)]

/-- The ascending scan with break from `VersionDetector.capabilities`:
`for ver, caps in registry: if ver <= v: best = caps else: break`. -/
def scanBest (v : LakeXpressVersion) :
    List RegistryEntry → Option VersionCapabilities → Option VersionCapabilities
  | [], best => best
  | e :: rest, best => if vle e.1 v then scanBest v rest (some e.2) else best

/-- `VersionDetector.capabilities` from src/version.py, generalized over the
registry contents and the cached detection outcome: empty registry gives the
empty capability set; no detected version gives the last (highest) entry;
otherwise the scan keeps the last entry `<=` the detected version, falling
back to the last entry when none qualifies. -/
def capabilities (registry : List RegistryEntry) (detected : Option LakeXpressVersion) :
    VersionCapabilities :=
  match registry.getLast? with
  | none => emptyCapabilities
  | some lastE =>
    match detected with
    | none => lastE.2
    | some v => (scanBest v registry none).getD lastE.2

/-- Modelled from the spec: the capability set of the last registry entry
whose version is `<=` the detected version. -/
def lastLE (v : LakeXpressVersion) (registry : List RegistryEntry) :
    Option VersionCapabilities :=
  ((registry.filter (fun e => vle e.1 v)).getLast?).map Prod.snd

/-- Modelled from the spec: resolution as §4.2 words it — empty registry
gives the empty set, an absent version gives the highest entry, and a
present version gives the last entry `<= v`, falling back to the highest
entry when no entry qualifies. -/
def resolveSpec (registry : List RegistryEntry) (detected : Option LakeXpressVersion) :
    VersionCapabilities :=
  match registry.getLast? with
  | none => emptyCapabilities
  | some lastE =>
    match detected with
    | none => lastE.2
    | some v => (lastLE v registry).getD lastE.2

theorem getLast?_cons_eq (a : α) (l : List α) :
    (a :: l).getLast? = match l.getLast? with
      | some x => some x
      | none => some a := by
  induction l generalizing a with
  | nil => rfl
  | cons b m ih =>
    rw [List.getLast?_cons_cons, ih b]
    rcases m.getLast? with _ | x <;> rfl

/-- The ascending scan with break computes the last entry `<= v`, given a
registry sorted ascending (`vle` pairwise), with `acc` as fallback. -/
theorem scanBest_eq_lastLE (v : LakeXpressVersion) :
    ∀ (l : List RegistryEntry),
      l.Pairwise (fun a b => vle a.1 b.1 = true) →
      ∀ acc, scanBest v l acc =
        match lastLE v l with
        | some c => some c
        | none => acc := by
  intro l
  induction l with
  | nil => intro _ acc; rfl
  | cons e rest ih =>
    intro hp acc
    rcases List.pairwise_cons.mp hp with ⟨hhead, hrest⟩
    by_cases he : vle e.1 v = true
    · rw [scanBest, if_pos he, ih hrest (some e.2)]
      have hf : (e :: rest).filter (fun e => vle e.1 v) =
          e :: rest.filter (fun e => vle e.1 v) := by
        simp [List.filter_cons, he]
      unfold lastLE
      rw [hf, getLast?_cons_eq]
      rcases hht : (rest.filter (fun e => vle e.1 v)).getLast? with _ | x <;>
        simp only [hht, Option.map]
    · rw [scanBest, if_neg he]
      have hf : (e :: rest).filter (fun e => vle e.1 v) = [] := by
        rw [List.filter_cons, if_neg he, List.filter_eq_nil_iff]
        intro b hb hvb
        exact he (vle_trans (hhead b hb) hvb)
      rw [lastLE, hf]
      rfl

/-- Resolution agrees with the spec-side description on sorted registries. -/
theorem capabilities_eq_resolveSpec (registry : List RegistryEntry)
    (hs : registry.Pairwise (fun a b => vle a.1 b.1 = true))
    (detected : Option LakeXpressVersion) :
    capabilities registry detected = resolveSpec registry detected := by
  rcases hL : registry.getLast? with _ | lastE
  · simp only [capabilities, resolveSpec, hL]
  · rcases detected with _ | v
    · simp only [capabilities, resolveSpec, hL]
    · simp only [capabilities, resolveSpec, hL]
      rw [scanBest_eq_lastLE v registry hs none]
      rcases lastLE v registry with _ | c <;> rfl

/-! ## Enumerations (src/validators.py)

Each Python `str`-valued `Enum` becomes an inductive with a `value`
function giving the external string representation.  (`ErrorAction`'s
`continue` member is renamed `cont` because `continue` is a Lean keyword,
and `ConfigCreateParams.include` is renamed `include_field` likewise.) -/

/-- `CommandType` from src/validators.py: the 14 command kinds. -/
inductive CommandType
  | logdb_init | logdb_drop | logdb_truncate | logdb_locks | logdb_release_locks
  | config_create | config_delete | config_list
  | sync | sync_export | sync_publish
  | run | status | cleanup
deriving DecidableEq, Repr

def CommandType.value : CommandType → String
  | .logdb_init => "logdb_init"
  | .logdb_drop => "logdb_drop"
  | .logdb_truncate => "logdb_truncate"
  | .logdb_locks => "logdb_locks"
  | .logdb_release_locks => "logdb_release_locks"
  | .config_create => "config_create"
  | .config_delete => "config_delete"
  | .config_list => "config_list"
  | .sync => "sync"
  | .sync_export => "sync_export"
  | .sync_publish => "sync_publish"
  | .run => "run"
  | .status => "status"
  | .cleanup => "cleanup"

inductive LogLevel
  | debug | info | warning | error
deriving DecidableEq, Repr

def LogLevel.value : LogLevel → String
  | .debug => "DEBUG"
  | .info => "INFO"
  | .warning => "WARNING"
  | .error => "ERROR"

inductive PublishMethod
  | external | internal
deriving DecidableEq, Repr

def PublishMethod.value : PublishMethod → String
  | .external => "external"
  | .internal => "internal"

inductive CompressionType
  | zstd | snappy | gzip | lz4 | none
deriving DecidableEq, Repr

def CompressionType.value : CompressionType → String
  | .zstd => "Zstd"
  | .snappy => "Snappy"
  | .gzip => "Gzip"
  | .lz4 => "Lz4"
  | .none => "None"

inductive ErrorAction
  | fail | cont | skip
deriving DecidableEq, Repr

def ErrorAction.value : ErrorAction → String
  | .fail => "fail"
  | .cont => "continue"
  | .skip => "skip"

inductive CleanupStatus
  | running | failed
deriving DecidableEq, Repr

def CleanupStatus.value : CleanupStatus → String
  | .running => "running"
  | .failed => "failed"

/-! ## Parameter models (src/validators.py)

The pydantic models become structures over already-validated field
values; `Optional[...]` fields become `Option`, defaults are the source
defaults.  Python truthiness, which the builders and the cross-field
validators use on optional strings, enum values and lists, is made
explicit below. -/

/-- Python truthiness of an `Optional[str]`: present and non-empty. -/
def truthyStr : Option String → Bool
  | some s => s != ""
  | none => false

/-- Python truthiness of an optional `str`-enum member: present and with a
non-empty string value. -/
def truthyVal (value : α → String) : Option α → Bool
  | some x => value x != ""
  | none => false

/-- Python truthiness of an `Optional[List[str]]`: present and non-empty. -/
def truthyList : Option (List String) → Bool
  | some l => !l.isEmpty
  | none => false

/-- `GlobalOptions` from src/validators.py. -/
structure GlobalOpts where
  auth_file : String
  log_db_auth_id : String
  log_level : Option LogLevel := Option.none
  log_dir : Option String := Option.none
  no_progress : Bool := false
  no_banner : Bool := false
deriving DecidableEq, Repr

structure LogdbInitParams extends GlobalOpts
deriving DecidableEq, Repr

structure LogdbDropParams extends GlobalOpts where
  confirm : Bool := false
deriving DecidableEq, Repr

structure LogdbTruncateParams extends GlobalOpts where
  sync_id : Option String := Option.none
  confirm : Bool := false
deriving DecidableEq, Repr

structure LogdbLocksParams extends GlobalOpts where
  sync_id : Option String := Option.none
deriving DecidableEq, Repr

structure LogdbReleaseLocksParams extends GlobalOpts where
  max_age_hours : Option Int := Option.none
  table_id : Option String := Option.none
  confirm : Bool := false
deriving DecidableEq, Repr

structure ConfigCreateParams extends GlobalOpts where
  source_db_auth_id : String
  source_db_name : Option String := Option.none
  source_schema_name : Option String := Option.none
  include_field : Option String := Option.none
  exclude : Option String := Option.none
  min_rows : Option Int := Option.none
  max_rows : Option Int := Option.none
  incremental_table : Option (List String) := Option.none
  incremental_safety_lag : Option Int := Option.none
  output_dir : Option String := Option.none
  target_storage_id : Option String := Option.none
  sub_path : Option String := Option.none
  fastbcp_dir_path : Option String := Option.none
  fastbcp_p : Option Int := Option.none
  n_jobs : Option Int := Option.none
  compression_type : Option CompressionType := Option.none
  large_table_threshold : Option Int := Option.none
  fastbcp_table_config : Option String := Option.none
  publish_target : Option String := Option.none
  publish_method : Option PublishMethod := Option.none
  publish_database_name : Option String := Option.none
  publish_schema_pattern : Option String := Option.none
  publish_table_pattern : Option String := Option.none
  no_views : Bool := false
  pk_constraints : Bool := false
  generate_metadata : Bool := false
  manifest_name : Option String := Option.none
  sync_id : Option String := Option.none
  error_action : Option ErrorAction := Option.none
  env_name : Option String := Option.none
deriving DecidableEq, Repr

structure ConfigDeleteParams extends GlobalOpts where
  sync_id : String
  confirm : Bool := false
deriving DecidableEq, Repr

structure ConfigListParams extends GlobalOpts where
  env_name : Option String := Option.none
deriving DecidableEq, Repr

structure SyncParams where
  sync_id : Option String := Option.none
  resume : Bool := false
  run_id : Option String := Option.none
  auth_file : Option String := Option.none
  fastbcp_dir_path : Option String := Option.none
  log_level : Option LogLevel := Option.none
  log_dir : Option String := Option.none
  no_progress : Bool := false
  no_banner : Bool := false
deriving DecidableEq, Repr

structure SyncExportParams where
  sync_id : Option String := Option.none
  auth_file : Option String := Option.none
  fastbcp_dir_path : Option String := Option.none
  log_level : Option LogLevel := Option.none
  log_dir : Option String := Option.none
  no_progress : Bool := false
  no_banner : Bool := false
deriving DecidableEq, Repr

structure SyncPublishParams where
  sync_id : Option String := Option.none
  run_id : Option String := Option.none
  auth_file : Option String := Option.none
  log_level : Option LogLevel := Option.none
  log_dir : Option String := Option.none
  no_progress : Bool := false
  no_banner : Bool := false
deriving DecidableEq, Repr

structure RunParams where
  config : String
  auth_file : Option String := Option.none
  log_db_auth_id : Option String := Option.none
  log_level : Option LogLevel := Option.none
  log_dir : Option String := Option.none
  no_progress : Bool := false
  no_banner : Bool := false
deriving DecidableEq, Repr

structure StatusParams extends GlobalOpts where
  sync_id : Option String := Option.none
  run_id : Option String := Option.none
  verbose : Bool := false
deriving DecidableEq, Repr

structure CleanupParams extends GlobalOpts where
  sync_id : String
  older_than : Option String := Option.none
  status : Option CleanupStatus := Option.none
  dry_run : Bool := false
deriving DecidableEq, Repr

/-- `LakeXpressRequest` from src/validators.py: the declared command plus
one optional field per parameter-set variant. -/
structure LakeXpressRequest where
  command : CommandType
  logdb_init : Option LogdbInitParams := Option.none
  logdb_drop : Option LogdbDropParams := Option.none
  logdb_truncate : Option LogdbTruncateParams := Option.none
  logdb_locks : Option LogdbLocksParams := Option.none
  logdb_release_locks : Option LogdbReleaseLocksParams := Option.none
  config_create : Option ConfigCreateParams := Option.none
  config_delete : Option ConfigDeleteParams := Option.none
  config_list : Option ConfigListParams := Option.none
  sync : Option SyncParams := Option.none
  sync_export : Option SyncExportParams := Option.none
  sync_publish : Option SyncPublishParams := Option.none
  run : Option RunParams := Option.none
  status : Option StatusParams := Option.none
  cleanup : Option CleanupParams := Option.none
deriving DecidableEq, Repr

/-! ## Command builder (src/lakexpress.py, CommandBuilder)

Each `_build_*` method becomes a pure function from the binary path and
the validated parameters to the token list.  The Python idiom
`if params.x: cmd.extend([flag, params.x])` on an optional string /
enum / list, `if params.n is not None: cmd.extend([flag, str(params.n)])`
on an optional int, and `if params.b: cmd.append(flag)` on a bool become
the `emit*` helpers. -/

/-- `if params.x: cmd.extend([flag, x])` for an optional string. -/
def emitOptStr (flag : String) : Option String → List String
  | some s => if s != "" then [flag, s] else []
  | none => []

/-- `if params.x: cmd.extend([flag, x.value])` for an optional enum. -/
def emitOptEnum (flag : String) (value : α → String) : Option α → List String
  | some x => if value x != "" then [flag, value x] else []
  | none => []

/-- `if params.n is not None: cmd.extend([flag, str(n)])` for an optional int. -/
def emitOptInt (flag : String) : Option Int → List String
  | some i => [flag, toString i]
  | none => []

/-- `if params.b: cmd.append(flag)` for a boolean flag. -/
def emitFlag (flag : String) : Bool → List String
  | true => [flag]
  | false => []

/-- `if params.xs: for x in xs: cmd.extend([flag, x])` for an optional list. -/
def emitOptList (flag : String) : Option (List String) → List String
  | some l => if l.isEmpty then [] else (l.map (fun x => [flag, x])).flatten
  | none => []

/-- `CommandBuilder._build_global_options`. -/
def buildGlobalOptions (p : GlobalOpts) : List String :=
  ["-a", p.auth_file] ++ ["--log_db_auth_id", p.log_db_auth_id]
    ++ emitOptEnum "--log_level" LogLevel.value p.log_level
    ++ emitOptStr "--log_dir" p.log_dir
    ++ emitFlag "--no_progress" p.no_progress
    ++ emitFlag "--no_banner" p.no_banner

/-- `CommandBuilder._build_common_options` (sync/run family: no auth-file or
log-db defaults). -/
def buildCommonOptions (log_level : Option LogLevel) (log_dir : Option String)
    (no_progress no_banner : Bool) : List String :=
  emitOptEnum "--log_level" LogLevel.value log_level
    ++ emitOptStr "--log_dir" log_dir
    ++ emitFlag "--no_progress" no_progress
    ++ emitFlag "--no_banner" no_banner

def buildLogdbInit (path : String) (p : LogdbInitParams) : List String :=
  [path, "logdb", "init"] ++ buildGlobalOptions p.toGlobalOpts

def buildLogdbDrop (path : String) (p : LogdbDropParams) : List String :=
  [path, "logdb", "drop"] ++ buildGlobalOptions p.toGlobalOpts
    ++ emitFlag "--confirm" p.confirm

def buildLogdbTruncate (path : String) (p : LogdbTruncateParams) : List String :=
  [path, "logdb", "truncate"] ++ buildGlobalOptions p.toGlobalOpts
    ++ emitOptStr "--sync_id" p.sync_id
    ++ emitFlag "--confirm" p.confirm

def buildLogdbLocks (path : String) (p : LogdbLocksParams) : List String :=
  [path, "logdb", "locks"] ++ buildGlobalOptions p.toGlobalOpts
    ++ emitOptStr "--sync_id" p.sync_id

def buildLogdbReleaseLocks (path : String) (p : LogdbReleaseLocksParams) : List String :=
  [path, "logdb", "release-locks"] ++ buildGlobalOptions p.toGlobalOpts
    ++ emitOptInt "--max_age_hours" p.max_age_hours
    ++ emitOptStr "--table_id" p.table_id
    ++ emitFlag "--confirm" p.confirm

def buildConfigCreate (path : String) (p : ConfigCreateParams) : List String :=
  [path, "config", "create"] ++ buildGlobalOptions p.toGlobalOpts
    ++ ["--source_db_auth_id", p.source_db_auth_id]
    ++ emitOptStr "--source_db_name" p.source_db_name
    ++ emitOptStr "--source_schema_name" p.source_schema_name
    ++ emitOptStr "-i" p.include_field
    ++ emitOptStr "-e" p.exclude
    ++ emitOptInt "--min_rows" p.min_rows
    ++ emitOptInt "--max_rows" p.max_rows
    ++ emitOptList "--incremental_table" p.incremental_table
    ++ emitOptInt "--incremental_safety_lag" p.incremental_safety_lag
    ++ emitOptStr "--output_dir" p.output_dir
    ++ emitOptStr "--target_storage_id" p.target_storage_id
    ++ emitOptStr "--sub_path" p.sub_path
    ++ emitOptStr "--fastbcp_dir_path" p.fastbcp_dir_path
    ++ emitOptInt "-p" p.fastbcp_p
    ++ emitOptInt "--n_jobs" p.n_jobs
    ++ emitOptEnum "--compression_type" CompressionType.value p.compression_type
    ++ emitOptInt "--large_table_threshold" p.large_table_threshold
    ++ emitOptStr "--fastbcp_table_config" p.fastbcp_table_config
    ++ emitOptStr "--publish_target" p.publish_target
    ++ emitOptEnum "--publish_method" PublishMethod.value p.publish_method
    ++ emitOptStr "--publish_database_name" p.publish_database_name
    ++ emitOptStr "--publish_schema_pattern" p.publish_schema_pattern
    ++ emitOptStr "--publish_table_pattern" p.publish_table_pattern
    ++ emitFlag "--no_views" p.no_views
    ++ emitFlag "--pk_constraints" p.pk_constraints
    ++ emitFlag "--generate_metadata" p.generate_metadata
    ++ emitOptStr "--manifest_name" p.manifest_name
    ++ emitOptStr "--sync_id" p.sync_id
    ++ emitOptEnum "--error_action" ErrorAction.value p.error_action
    ++ emitOptStr "--env_name" p.env_name

def buildConfigDelete (path : String) (p : ConfigDeleteParams) : List String :=
  [path, "config", "delete"] ++ buildGlobalOptions p.toGlobalOpts
    ++ ["--sync_id", p.sync_id]
    ++ emitFlag "--confirm" p.confirm

def buildConfigList (path : String) (p : ConfigListParams) : List String :=
  [path, "config", "list"] ++ buildGlobalOptions p.toGlobalOpts
    ++ emitOptStr "--env_name" p.env_name

def buildSync (path : String) (p : SyncParams) : List String :=
  [path, "sync"]
    ++ emitOptStr "--sync_id" p.sync_id
    ++ emitFlag "--resume" p.resume
    ++ emitOptStr "--run_id" p.run_id
    ++ emitOptStr "-a" p.auth_file
    ++ emitOptStr "--fastbcp_dir_path" p.fastbcp_dir_path
    ++ buildCommonOptions p.log_level p.log_dir p.no_progress p.no_banner

def buildSyncExport (path : String) (p : SyncExportParams) : List String :=
  [path, "sync[export]"]
    ++ emitOptStr "--sync_id" p.sync_id
    ++ emitOptStr "-a" p.auth_file
    ++ emitOptStr "--fastbcp_dir_path" p.fastbcp_dir_path
    ++ buildCommonOptions p.log_level p.log_dir p.no_progress p.no_banner

def buildSyncPublish (path : String) (p : SyncPublishParams) : List String :=
  [path, "sync[publish]"]
    ++ emitOptStr "--sync_id" p.sync_id
    ++ emitOptStr "--run_id" p.run_id
    ++ emitOptStr "-a" p.auth_file
    ++ buildCommonOptions p.log_level p.log_dir p.no_progress p.no_banner

def buildRun (path : String) (p : RunParams) : List String :=
  [path, "run"] ++ ["-c", p.config]
    ++ emitOptStr "-a" p.auth_file
    ++ emitOptStr "--log_db_auth_id" p.log_db_auth_id
    ++ buildCommonOptions p.log_level p.log_dir p.no_progress p.no_banner

def buildStatus (path : String) (p : StatusParams) : List String :=
  [path, "status"] ++ buildGlobalOptions p.toGlobalOpts
    ++ emitOptStr "--sync_id" p.sync_id
    ++ emitOptStr "--run_id" p.run_id
    ++ emitFlag "--verbose" p.verbose

def buildCleanup (path : String) (p : CleanupParams) : List String :=
  [path, "cleanup"] ++ buildGlobalOptions p.toGlobalOpts
    ++ ["--sync_id", p.sync_id]
    ++ emitOptStr "--older-than" p.older_than
    ++ emitOptEnum "--status" CleanupStatus.value p.status
    ++ emitFlag "--dry-run" p.dry_run

/-- `CommandBuilder.build_command`: dispatch on the declared command; the
Python `assert request.x is not None` before each call is modelled by
returning `none` when the variant is absent. -/
def buildCommand (path : String) (r : LakeXpressRequest) : Option (List String) :=
  match r.command with
  | .logdb_init => r.logdb_init.map (buildLogdbInit path)
  | .logdb_drop => r.logdb_drop.map (buildLogdbDrop path)
  | .logdb_truncate => r.logdb_truncate.map (buildLogdbTruncate path)
  | .logdb_locks => r.logdb_locks.map (buildLogdbLocks path)
  | .logdb_release_locks => r.logdb_release_locks.map (buildLogdbReleaseLocks path)
  | .config_create => r.config_create.map (buildConfigCreate path)
  | .config_delete => r.config_delete.map (buildConfigDelete path)
  | .config_list => r.config_list.map (buildConfigList path)
  | .sync => r.sync.map (buildSync path)
  | .sync_export => r.sync_export.map (buildSyncExport path)
  | .sync_publish => r.sync_publish.map (buildSyncPublish path)
  | .run => r.run.map (buildRun path)
  | .status => r.status.map (buildStatus path)
  | .cleanup => r.cleanup.map (buildCleanup path)

/-- The subcommand token(s) each kind places right after the binary path. -/
def subcommandTokens : CommandType → List String
  | .logdb_init => ["logdb", "init"]
  | .logdb_drop => ["logdb", "drop"]
  | .logdb_truncate => ["logdb", "truncate"]
  | .logdb_locks => ["logdb", "locks"]
  | .logdb_release_locks => ["logdb", "release-locks"]
  | .config_create => ["config", "create"]
  | .config_delete => ["config", "delete"]
  | .config_list => ["config", "list"]
  | .sync => ["sync"]
  | .sync_export => ["sync[export]"]
  | .sync_publish => ["sync[publish]"]
  | .run => ["run"]
  | .status => ["status"]
  | .cleanup => ["cleanup"]

/-! ## Validation (src/validators.py)

Pydantic v2 semantics modelled here:

* field-level errors (e.g. a required field missing) are collected, each
  with a location path; a nested model's errors are prefixed with the
  field that holds it, so a dotted path such as `config_create.auth_file`
  comes out as the location list `["config_create", "auth_file"]`;
* `model_validator(mode="after")` functions run in definition order and
  the first `ValueError` aborts validation of that model, yielding a
  single error located at the model itself (for the nested
  `config_create` model, the location is `["config_create"]`, not the
  individual field);
* the top-level `LakeXpressRequest.validate_command_params` raise yields a
  single error located at the root (`[]`). -/

/-- One pydantic error: location path plus message. -/
abbrev FieldError := List String × String

def mutualExclMsg : String :=
  "output_dir and target_storage_id are mutually exclusive. Use output_dir for local storage or target_storage_id for cloud storage."

def missingDestMsg : String :=
  "At least one of output_dir or target_storage_id must be provided."

def publishMethodMsg : String :=
  "publish_method requires publish_target to be set."

/-- `ConfigCreateParams.validate_output_destination`: the first `after`
model validator; `some msg` is a raised `ValueError`. -/
def validateOutputDestination (p : ConfigCreateParams) : Option String :=
  if truthyStr p.output_dir && truthyStr p.target_storage_id then
    some mutualExclMsg
  else if !truthyStr p.output_dir && !truthyStr p.target_storage_id then
    some missingDestMsg
  else
    Option.none

/-- `ConfigCreateParams.validate_publish_method_requires_target`: the second
`after` model validator. -/
def validatePublishMethodRequiresTarget (p : ConfigCreateParams) : Option String :=
  if truthyVal PublishMethod.value p.publish_method && !truthyStr p.publish_target then
    some publishMethodMsg
  else
    Option.none

/-- The pydantic errors produced for a `config_create` variant whose fields
already validated: the two `after` model validators run in definition
order, the first raise aborts, and the error is located at the nested
model (`["config_create"]`). -/
def configCreateErrors (p : ConfigCreateParams) : List FieldError :=
  match validateOutputDestination p with
  | some msg => [(["config_create"], msg)]
  | Option.none =>
    match validatePublishMethodRequiresTarget p with
    | some msg => [(["config_create"], msg)]
    | Option.none => []

/-- The `command_to_field` mapping of
`LakeXpressRequest.validate_command_params`. -/
def commandToField : CommandType → String
  | .logdb_init => "logdb_init"
  | .logdb_drop => "logdb_drop"
  | .logdb_truncate => "logdb_truncate"
  | .logdb_locks => "logdb_locks"
  | .logdb_release_locks => "logdb_release_locks"
  | .config_create => "config_create"
  | .config_delete => "config_delete"
  | .config_list => "config_list"
  | .sync => "sync"
  | .sync_export => "sync_export"
  | .sync_publish => "sync_publish"
  | .run => "run"
  | .status => "status"
  | .cleanup => "cleanup"

/-- `getattr(self, expected_field) is not None` for the declared command. -/
def expectedVariantPresent (r : LakeXpressRequest) : Bool :=
  match r.command with
  | .logdb_init => r.logdb_init.isSome
  | .logdb_drop => r.logdb_drop.isSome
  | .logdb_truncate => r.logdb_truncate.isSome
  | .logdb_locks => r.logdb_locks.isSome
  | .logdb_release_locks => r.logdb_release_locks.isSome
  | .config_create => r.config_create.isSome
  | .config_delete => r.config_delete.isSome
  | .config_list => r.config_list.isSome
  | .sync => r.sync.isSome
  | .sync_export => r.sync_export.isSome
  | .sync_publish => r.sync_publish.isSome
  | .run => r.run.isSome
  | .status => r.status.isSome
  | .cleanup => r.cleanup.isSome

/-- The message of the raise in `validate_command_params`. -/
def missingParamsMsg (c : CommandType) : String :=
  "Command " ++ c.value ++ " requires " ++ commandToField c
    ++ " parameters to be provided."

/-- `LakeXpressRequest.validate_command_params`: the single `after` model
validator of the top-level request; its raise is one root-located error. -/
def validateCommandParams (r : LakeXpressRequest) : List FieldError :=
  if expectedVariantPresent r then []
  else [([], missingParamsMsg r.command)]

/-! ## Raw-input validation for required string identifiers
(src/validators.py, ConfigDeleteParams / CleanupParams)

Pydantic constructs these models from raw (JSON-like) inputs: a required
`str` field errors only when absent — there is no emptiness or length
constraint on `sync_id` — and missing-field errors are collected per
field. -/

/-- Raw input for `ConfigDeleteParams` before validation. -/
structure ConfigDeleteInput where
  auth_file : Option String := Option.none
  log_db_auth_id : Option String := Option.none
  log_level : Option LogLevel := Option.none
  log_dir : Option String := Option.none
  no_progress : Option Bool := Option.none
  no_banner : Option Bool := Option.none
  sync_id : Option String := Option.none
  confirm : Option Bool := Option.none
deriving DecidableEq, Repr

/-- Pydantic construction of `ConfigDeleteParams`: required fields
(`auth_file`, `log_db_auth_id`, `sync_id`) must be present; every other
field takes its declared default; no further constraint on any string. -/
def validateConfigDelete (i : ConfigDeleteInput) :
    Except (List FieldError) ConfigDeleteParams :=
  match i.auth_file, i.log_db_auth_id, i.sync_id with
  | some a, some l, some s =>
    .ok { auth_file := a
          log_db_auth_id := l
          log_level := i.log_level
          log_dir := i.log_dir
          no_progress := i.no_progress.getD false
          no_banner := i.no_banner.getD false
          sync_id := s
          confirm := i.confirm.getD false }
  | _, _, _ =>
    .error
      ((if i.auth_file.isNone then [(["auth_file"], "Field required")] else [])
        ++ (if i.log_db_auth_id.isNone then [(["log_db_auth_id"], "Field required")] else [])
        ++ (if i.sync_id.isNone then [(["sync_id"], "Field required")] else []))

/-- Raw input for `CleanupParams` before validation. -/
structure CleanupInput where
  auth_file : Option String := Option.none
  log_db_auth_id : Option String := Option.none
  log_level : Option LogLevel := Option.none
  log_dir : Option String := Option.none
  no_progress : Option Bool := Option.none
  no_banner : Option Bool := Option.none
  sync_id : Option String := Option.none
  older_than : Option String := Option.none
  status : Option CleanupStatus := Option.none
  dry_run : Option Bool := Option.none
deriving DecidableEq, Repr

/-- Pydantic construction of `CleanupParams`: required fields must be
present; `sync_id` carries no emptiness constraint. -/
def validateCleanup (i : CleanupInput) :
    Except (List FieldError) CleanupParams :=
  match i.auth_file, i.log_db_auth_id, i.sync_id with
  | some a, some l, some s =>
    .ok { auth_file := a
          log_db_auth_id := l
          log_level := i.log_level
          log_dir := i.log_dir
          no_progress := i.no_progress.getD false
          no_banner := i.no_banner.getD false
          sync_id := s
          older_than := i.older_than
          status := i.status
          dry_run := i.dry_run.getD false }
  | _, _, _ =>
    .error
      ((if i.auth_file.isNone then [(["auth_file"], "Field required")] else [])
        ++ (if i.log_db_auth_id.isNone then [(["log_db_auth_id"], "Field required")] else [])
        ++ (if i.sync_id.isNone then [(["sync_id"], "Field required")] else []))

/-! ## Characterization of the version-pattern search -/

/-- A character list that starts with the pattern
`(\d+)\.(\d+)\.(\d+)`: three non-empty all-digit runs separated by
literal dots, followed by anything. -/
def TriplePattern (q : List Char) : Prop :=
  ∃ d1 d2 d3 rest,
    q = d1 ++ '.' :: (d2 ++ '.' :: (d3 ++ rest))
      ∧ d1 ≠ [] ∧ (∀ c ∈ d1, c.isDigit = true)
      ∧ d2 ≠ [] ∧ (∀ c ∈ d2, c.isDigit = true)
      ∧ d3 ≠ [] ∧ (∀ c ∈ d3, c.isDigit = true)

theorem takeWhile_all_append (p : Char → Bool) (d : List Char) (c : Char)
    (t : List Char) (hd : ∀ x ∈ d, p x = true) (hc : p c = false) :
    (d ++ c :: t).takeWhile p = d ∧ (d ++ c :: t).dropWhile p = c :: t := by
  induction d with
  | nil => simp [List.takeWhile_cons, List.dropWhile_cons, hc]
  | cons a d ih =>
    have ha : p a = true := hd a (by simp)
    obtain ⟨h1, h2⟩ := ih (fun x hx => hd x (by simp [hx]))
    refine ⟨?_, ?_⟩
    · simpa [List.takeWhile_cons, ha] using h1
    · simpa [List.dropWhile_cons, ha] using h2

theorem isEmpty_false_of_ne_nil {α} (l : List α) (h : l ≠ []) :
    l.isEmpty = false := by
  cases l with
  | nil => exact absurd rfl h
  | cons a t => rfl

theorem takeWhile_cons_isEmpty_false (p : Char → Bool) (c : Char)
    (t : List Char) (hc : p c = true) :
    ((c :: t).takeWhile p).isEmpty = false := by
  simp [List.takeWhile_cons, hc]

/-- The anchored match succeeds exactly on lists starting with the
pattern. -/
theorem ne_nil_of_isEmpty_ne_true {α} (l : List α)
    (h : ¬l.isEmpty = true) : l ≠ [] := by
  intro hnil
  exact h (by rw [hnil]; rfl)

theorem matchTriple_isSome_iff (l : List Char) :
    (matchTriple l).isSome = true ↔ TriplePattern l := by
  constructor
  · intro h
    simp only [matchTriple] at h
    split at h
    · simp at h
    · rename_i hne1'
      split at h
      · rename_i r2 heq1
        split at h
        · simp at h
        · rename_i hne2'
          split at h
          · rename_i r4 heq2
            split at h
            · simp at h
            · rename_i hne3'
              refine ⟨l.takeWhile Char.isDigit, r2.takeWhile Char.isDigit,
                r4.takeWhile Char.isDigit, r4.dropWhile Char.isDigit,
                ?_, ne_nil_of_isEmpty_ne_true _ hne1',
                fun c hc => List.mem_takeWhile_imp hc,
                ne_nil_of_isEmpty_ne_true _ hne2',
                fun c hc => List.mem_takeWhile_imp hc,
                ne_nil_of_isEmpty_ne_true _ hne3',
                fun c hc => List.mem_takeWhile_imp hc⟩
              conv_lhs => rw [← List.takeWhile_append_dropWhile (p := Char.isDigit) (l := l)]
              rw [heq1]
              congr 2
              conv_lhs => rw [← List.takeWhile_append_dropWhile (p := Char.isDigit) (l := r2)]
              rw [heq2]
              congr 2
              rw [List.takeWhile_append_dropWhile]
          · simp at h
      · simp at h
  · rintro ⟨d1, d2, d3, rest, rfl, hne1, hd1, hne2, hd2, hne3, hd3⟩
    have hdot : Char.isDigit '.' = false := rfl
    obtain ⟨t1a, t1b⟩ :=
      takeWhile_all_append Char.isDigit d1 '.' (d2 ++ '.' :: (d3 ++ rest)) hd1 hdot
    obtain ⟨t2a, t2b⟩ :=
      takeWhile_all_append Char.isDigit d2 '.' (d3 ++ rest) hd2 hdot
    rcases d3 with _ | ⟨c3, d3t⟩
    · exact absurd rfl hne3
    · have hc3 : Char.isDigit c3 = true := hd3 c3 (by simp)
      simp only [List.cons_append] at t1a t1b t2a t2b
      simp only [matchTriple, List.cons_append, t1a, t1b,
        isEmpty_false_of_ne_nil d1 hne1, t2a, t2b,
        isEmpty_false_of_ne_nil d2 hne2, List.takeWhile_cons, hc3,
        if_true, Bool.false_eq_true, if_false, List.isEmpty_cons,
        Option.isSome_some]

theorem matchTriple_nil : matchTriple [] = Option.none := rfl

/-- The search fails exactly when the anchored match fails at every start
position. -/
theorem searchTriple_eq_none_iff (l : List Char) :
    searchTriple l = Option.none ↔
      ∀ i, matchTriple (l.drop i) = Option.none := by
  induction l with
  | nil => simp [searchTriple, List.drop_nil, matchTriple_nil]
  | cons c rest ih =>
    constructor
    · intro h i
      rw [searchTriple] at h
      rcases hm : matchTriple (c :: rest) with _ | t
      · rw [hm] at h
        have h' : searchTriple rest = Option.none := h
        rcases i with _ | i
        · exact hm
        · exact (ih.mp h') i
      · rw [hm] at h
        exact absurd h (by simp)
    · intro h
      have h0 := h 0
      rw [List.drop_zero] at h0
      rw [searchTriple, h0]
      exact ih.mpr (fun i => h (i + 1))

/-- A successful search returns the anchored match of the first matching
start position. -/
theorem searchTriple_eq_some_first (l : List Char) (t : Nat × Nat × Nat)
    (h : searchTriple l = some t) :
    ∃ i, matchTriple (l.drop i) = some t
      ∧ ∀ j < i, matchTriple (l.drop j) = Option.none := by
  induction l with
  | nil =>
    have h' : (Option.none : Option (Nat × Nat × Nat)) = some t := h
    cases h'
  | cons c rest ih =>
    rw [searchTriple] at h
    rcases hm : matchTriple (c :: rest) with _ | t'
    · rw [hm] at h
      have h' : searchTriple rest = some t := h
      obtain ⟨i, hi, hfirst⟩ := ih h'
      refine ⟨i + 1, hi, ?_⟩
      intro j hj
      rcases j with _ | j
      · exact hm
      · exact hfirst j (by omega)
    · rw [hm] at h
      have h' : some t' = some t := h
      cases h'
      refine ⟨0, ?_, by omega⟩
      rw [List.drop_zero]
      exact hm

theorem searchTriple_isSome_iff (l : List Char) :
    (searchTriple l).isSome = true ↔
      ∃ i, (matchTriple (l.drop i)).isSome = true := by
  constructor
  · intro h
    rcases hs : searchTriple l with _ | t
    · rw [hs] at h; exact absurd h (by simp)
    · obtain ⟨i, hi, _⟩ := searchTriple_eq_some_first l t hs
      exact ⟨i, by rw [hi]; rfl⟩
  · rintro ⟨i, hi⟩
    rcases hs : searchTriple l with _ | t
    · rw [(searchTriple_eq_none_iff l).mp hs i] at hi
      exact absurd hi (by simp)
    · rfl

theorem exists_drop_iff {α} (P : List α → Prop) (l : List α) :
    (∃ i, P (l.drop i)) ↔ ∃ p q, l = p ++ q ∧ P q := by
  constructor
  · rintro ⟨i, hi⟩
    exact ⟨l.take i, l.drop i, (List.take_append_drop i l).symm, hi⟩
  · rintro ⟨p, q, rfl, hq⟩
    exact ⟨p.length, by rw [List.drop_left]; exact hq⟩

/-- `parse` succeeds exactly when the search succeeds. -/
theorem parse_isOk_eq (s : String) :
    (LakeXpressVersion.parse s).isOk = (searchTriple (pyStrip s.data)).isSome := by
  rw [LakeXpressVersion.parse]
  rcases h : searchTriple (pyStrip s.data) with _ | t
  · rfl
  · rcases t with ⟨a, b, c⟩; rfl

/-- A successful `parse` returns the components found by the search. -/
theorem parse_ok_searchTriple (s : String) (v : LakeXpressVersion)
    (h : LakeXpressVersion.parse s = .ok v) :
    searchTriple (pyStrip s.data) = some (v.major, v.minor, v.patch) := by
  rw [LakeXpressVersion.parse] at h
  rcases hs : searchTriple (pyStrip s.data) with _ | t
  · rw [hs] at h; cases h
  · rcases t with ⟨a, b, c⟩
    rw [hs] at h
    cases h
    rfl

/-! ## Claims -/

/-- C1: for every detected version and every registry sorted ascending,
resolution returns the capability set of the last registry entry whose
version is `<=` the detected version; if no entry qualifies or the version
is absent, it returns the highest registered entry's capability set; if
the registry is empty, it returns the all-empty capability set
(`capabilities` agrees with the spec-side `resolveSpec`).  In particular,
with the registry containing only (0,2,8), a detected (1,0,0) and an
undetected version both resolve to (0,2,8)'s capability set. -/
theorem c1_version_capability_resolution
    (registry : List RegistryEntry)
    (hs : registry.Pairwise (fun a b => vle a.1 b.1 = true))
    (detected : Option LakeXpressVersion) :
    capabilities registry detected = resolveSpec registry detected
      ∧ capabilities sortedVersions (some ⟨1, 0, 0⟩) = caps_0_2_8
      ∧ capabilities sortedVersions Option.none = caps_0_2_8
      ∧ capabilities [] detected = emptyCapabilities :=
  ⟨capabilities_eq_resolveSpec registry hs detected, rfl, rfl, rfl⟩

theorem c1_version_capability_resolution_witness :
    (capabilities sortedVersions (some ⟨0, 3, 0⟩)
        = resolveSpec sortedVersions (some ⟨0, 3, 0⟩))
      ∧ capabilities sortedVersions (some ⟨1, 0, 0⟩) = caps_0_2_8
      ∧ capabilities sortedVersions Option.none = caps_0_2_8
      ∧ capabilities [] (some ⟨0, 3, 0⟩) = emptyCapabilities :=
  c1_version_capability_resolution sortedVersions
    (by simp [sortedVersions]) (some ⟨0, 3, 0⟩)

/-- C2: building configuration-create from the validated parameters
{auth_file "a.json", log_db_auth_id "db", source_db_auth_id "src",
output_dir "/tmp/x", n_jobs 2, compression_type Zstd} yields exactly the
listed token vector in that order, and building cleanup with sync_id "s1",
older_than "7d", status failed and dry_run true yields the listed tokens
with the bare `--dry-run` flag followed by no value. -/
theorem c2_build_config_create_and_cleanup (path : String) :
    buildConfigCreate path
        { auth_file := "a.json", log_db_auth_id := "db",
          source_db_auth_id := "src", output_dir := some "/tmp/x",
          n_jobs := some 2, compression_type := some .zstd }
      = [path, "config", "create", "-a", "a.json", "--log_db_auth_id", "db",
         "--source_db_auth_id", "src", "--output_dir", "/tmp/x",
         "--n_jobs", "2", "--compression_type", "Zstd"]
    ∧ buildCleanup path
        { auth_file := "a.json", log_db_auth_id := "db", sync_id := "s1",
          older_than := some "7d", status := some .failed, dry_run := true }
      = [path, "cleanup", "-a", "a.json", "--log_db_auth_id", "db",
         "--sync_id", "s1", "--older-than", "7d", "--status", "failed",
         "--dry-run"] := by
  constructor
  · simp only [buildConfigCreate, buildGlobalOptions, emitOptStr, emitOptEnum,
      emitOptInt, emitFlag, emitOptList, CompressionType.value]
    simp
    decide
  · simp [buildCleanup, buildGlobalOptions, emitOptStr, emitOptEnum,
      emitFlag, CleanupStatus.value]

/-- C3: configuration-create cross-field validation rejects both
destinations with the mutual-exclusivity error, rejects neither destination
with the missing-destination error, rejects a publish method without a
publish target, and accepts exactly one destination together with a publish
target and publish method. -/
theorem c3_config_create_cross_field_validation :
    (∀ p : ConfigCreateParams,
        truthyStr p.output_dir = true → truthyStr p.target_storage_id = true →
        configCreateErrors p = [(["config_create"], mutualExclMsg)])
    ∧ (∀ p : ConfigCreateParams,
        truthyStr p.output_dir = false → truthyStr p.target_storage_id = false →
        configCreateErrors p = [(["config_create"], missingDestMsg)])
    ∧ (∀ p : ConfigCreateParams,
        truthyVal PublishMethod.value p.publish_method = true →
        truthyStr p.publish_target = false →
        configCreateErrors p ≠ [])
    ∧ (∀ p : ConfigCreateParams,
        truthyStr p.output_dir ≠ truthyStr p.target_storage_id →
        truthyStr p.publish_target = true →
        configCreateErrors p = []) := by
  refine ⟨?_, ?_, ?_, ?_⟩
  · intro p h1 h2
    simp [configCreateErrors, validateOutputDestination, h1, h2]
  · intro p h1 h2
    simp [configCreateErrors, validateOutputDestination, h1, h2]
  · intro p h1 h2
    rcases hv : validateOutputDestination p with _ | msg
    · have hw : validatePublishMethodRequiresTarget p = some publishMethodMsg := by
        simp [validatePublishMethodRequiresTarget, h1, h2]
      simp [configCreateErrors, hv, hw]
    · simp [configCreateErrors, hv]
  · intro p h1 h2
    have hv : validateOutputDestination p = Option.none := by
      rcases ho : truthyStr p.output_dir <;>
        rcases ht : truthyStr p.target_storage_id <;>
          simp [validateOutputDestination, ho, ht] <;>
            simp [ho, ht] at h1
    have hw : validatePublishMethodRequiresTarget p = Option.none := by
      simp [validatePublishMethodRequiresTarget, h2]
    simp [configCreateErrors, hv, hw]

/-- A minimal valid-shape configuration-create parameter set. -/
def cxBase : ConfigCreateParams :=
  { auth_file := "auth.json", log_db_auth_id := "db",
    source_db_auth_id := "src" }

theorem c3_config_create_cross_field_validation_witness :
    configCreateErrors
        { cxBase with
          output_dir := some "/tmp/x"
          target_storage_id := some "st" }
      = [(["config_create"], mutualExclMsg)]
    ∧ configCreateErrors cxBase = [(["config_create"], missingDestMsg)]
    ∧ configCreateErrors
        { cxBase with
          output_dir := some "/tmp/x"
          publish_method := some .external } ≠ []
    ∧ configCreateErrors
        { cxBase with
          output_dir := some "/tmp/x"
          publish_target := some "pt"
          publish_method := some .external }
      = [] :=
  ⟨c3_config_create_cross_field_validation.1 _ rfl rfl,
   c3_config_create_cross_field_validation.2.1 _ rfl rfl,
   c3_config_create_cross_field_validation.2.2.1 _ rfl rfl,
   c3_config_create_cross_field_validation.2.2.2 _ (by decide) rfl⟩

/-- The configuration-create parameters violating both cross-field rules:
both destinations supplied and a publish method without a publish target. -/
def cxDoubleViolation : ConfigCreateParams :=
  { auth_file := "a.json", log_db_auth_id := "db", source_db_auth_id := "src",
    output_dir := some "/tmp/x", target_storage_id := some "st",
    publish_method := some .external }

/-- C4 fails on the code: a configuration-create parameter set that
violates both cross-field rules produces exactly one reported error (the
mutual-exclusivity one), not both, and that error is tagged with the
variant path `config_create`, not the dotted field path
`config_create.output_dir`. -/
theorem c4_counterexample_single_error_reported :
    validateOutputDestination cxDoubleViolation = some mutualExclMsg
    ∧ validatePublishMethodRequiresTarget cxDoubleViolation
        = some publishMethodMsg
    ∧ (configCreateErrors cxDoubleViolation).length = 1
    ∧ configCreateErrors cxDoubleViolation
        = [(["config_create"], mutualExclMsg)] :=
  ⟨rfl, rfl, rfl, rfl⟩

/-- C4 amended: cross-field validation of configuration-create stops at the
first failing model validator — at most one violation is reported, it is
the first validator's message, and it is tagged with the variant path
`config_create` rather than the failing field's dotted path. -/
theorem c4_amended_first_violation_only :
    (∀ (p : ConfigCreateParams) (msg : String),
        validateOutputDestination p = some msg →
        configCreateErrors p = [(["config_create"], msg)])
    ∧ (∀ p : ConfigCreateParams, (configCreateErrors p).length ≤ 1)
    ∧ (∀ (p : ConfigCreateParams) (e : FieldError),
        e ∈ configCreateErrors p → e.1 = ["config_create"]) := by
  refine ⟨?_, ?_, ?_⟩
  · intro p msg h
    simp [configCreateErrors, h]
  · intro p
    rcases hv : validateOutputDestination p with _ | m
    · rcases hw : validatePublishMethodRequiresTarget p with _ | m2 <;>
        simp [configCreateErrors, hv, hw]
    · simp [configCreateErrors, hv]
  · intro p e he
    rcases hv : validateOutputDestination p with _ | m
    · rcases hw : validatePublishMethodRequiresTarget p with _ | m2
      · simp [configCreateErrors, hv, hw] at he
      · simp [configCreateErrors, hv, hw] at he
        simp [he]
    · simp [configCreateErrors, hv] at he
      simp [he]

theorem c4_amended_first_violation_only_witness :
    configCreateErrors cxDoubleViolation
      = [(["config_create"], mutualExclMsg)] :=
  c4_amended_first_violation_only.1 cxDoubleViolation mutualExclMsg rfl

/-- C5: `parse` succeeds exactly on inputs containing an occurrence of the
`digits.digits.digits` pattern (surrounding text ignored), returns the
anchored match at the first matching position, and on the concrete
examples: "LakeXpress 0.2.8", "0.2.8" and "  v 0.2.8  " all yield (0,2,8),
while "0.2" and "no version" fail. -/
theorem c5_parse_first_triple :
    (∀ s : String,
        (LakeXpressVersion.parse s).isOk = true ↔
          ∃ pre q, pyStrip s.data = pre ++ q ∧ TriplePattern q)
    ∧ (∀ (s : String) (v : LakeXpressVersion),
        LakeXpressVersion.parse s = .ok v →
          ∃ i, matchTriple ((pyStrip s.data).drop i)
                = some (v.major, v.minor, v.patch)
            ∧ ∀ j < i, matchTriple ((pyStrip s.data).drop j) = Option.none)
    ∧ LakeXpressVersion.parse "LakeXpress 0.2.8" = .ok ⟨0, 2, 8⟩
    ∧ LakeXpressVersion.parse "0.2.8" = .ok ⟨0, 2, 8⟩
    ∧ LakeXpressVersion.parse "  v 0.2.8  " = .ok ⟨0, 2, 8⟩
    ∧ (LakeXpressVersion.parse "0.2").isOk = false
    ∧ (LakeXpressVersion.parse "no version").isOk = false := by
  refine ⟨?_, ?_, rfl, rfl, rfl, rfl, rfl⟩
  · intro s
    rw [parse_isOk_eq, searchTriple_isSome_iff]
    constructor
    · rintro ⟨i, hi⟩
      exact (exists_drop_iff TriplePattern (pyStrip s.data)).mp
        ⟨i, (matchTriple_isSome_iff _).mp hi⟩
    · intro h
      obtain ⟨i, hi⟩ := (exists_drop_iff TriplePattern (pyStrip s.data)).mpr h
      exact ⟨i, (matchTriple_isSome_iff _).mpr hi⟩
  · intro s v h
    exact searchTriple_eq_some_first _ _ (parse_ok_searchTriple s v h)

theorem c5_parse_first_triple_witness :
    ∃ i, matchTriple ((pyStrip "0.2.8".data).drop i) = some (0, 2, 8)
      ∧ ∀ j < i, matchTriple ((pyStrip "0.2.8".data).drop j) = Option.none :=
  c5_parse_first_triple.2.1 "0.2.8" ⟨0, 2, 8⟩ rfl

/-- C6: a request whose declared command kind has no corresponding populated
parameter-set variant fails with a single error naming the expected variant
field, regardless of which other variants are populated. -/
theorem c6_missing_variant_single_error (r : LakeXpressRequest)
    (h : expectedVariantPresent r = false) :
    validateCommandParams r = [([], missingParamsMsg r.command)]
    ∧ (validateCommandParams r).length = 1 := by
  constructor <;> simp [validateCommandParams, h]

/-- A request declaring configuration-create but populating only sync. -/
def reqWrongVariant : LakeXpressRequest :=
  { command := .config_create, sync := some {} }

theorem c6_missing_variant_single_error_witness :
    validateCommandParams reqWrongVariant
        = [([], missingParamsMsg CommandType.config_create)]
    ∧ (validateCommandParams reqWrongVariant).length = 1 :=
  c6_missing_variant_single_error reqWrongVariant rfl

/-- C7: command building is deterministic — structurally equal validated
requests build token-for-token identical vectors. -/
theorem c7_build_deterministic (path : String) (r1 r2 : LakeXpressRequest)
    (h : r1 = r2) : buildCommand path r1 = buildCommand path r2 := by
  rw [h]

/-- A minimal validated logdb-init request. -/
def reqLogdbInit : LakeXpressRequest :=
  { command := .logdb_init,
    logdb_init := some { auth_file := "auth.json", log_db_auth_id := "db" } }

theorem c7_build_deterministic_witness :
    buildCommand "LakeXpress" reqLogdbInit
      = buildCommand "LakeXpress" reqLogdbInit :=
  c7_build_deterministic "LakeXpress" reqLogdbInit reqLogdbInit rfl

/-- C8: for every command kind, every built vector places the binary path at
index 0 followed immediately by that kind's subcommand token(s). -/
theorem c8_path_then_subcommand (path : String) (r : LakeXpressRequest)
    (out : List String) (h : buildCommand path r = some out) :
    ∃ rest, out = path :: subcommandTokens r.command ++ rest := by
  simp only [buildCommand] at h
  rcases hc : r.command <;>
    rw [hc] at h <;>
    simp only [Option.map_eq_some'] at h <;>
    obtain ⟨p, hp, rfl⟩ := h <;>
    simp only [buildLogdbInit, buildLogdbDrop, buildLogdbTruncate,
      buildLogdbLocks, buildLogdbReleaseLocks, buildConfigCreate,
      buildConfigDelete, buildConfigList, buildSync, buildSyncExport,
      buildSyncPublish, buildRun, buildStatus, buildCleanup,
      subcommandTokens, List.append_assoc, List.cons_append,
      List.nil_append] <;>
    exact ⟨_, rfl⟩

theorem c8_path_then_subcommand_witness :
    ∃ rest, ["LakeXpress", "logdb", "init", "-a", "auth.json",
        "--log_db_auth_id", "db"]
      = "LakeXpress" :: subcommandTokens CommandType.logdb_init ++ rest :=
  c8_path_then_subcommand "LakeXpress" reqLogdbInit
    ["LakeXpress", "logdb", "init", "-a", "auth.json", "--log_db_auth_id", "db"]
    rfl

/-- A configuration-delete raw input whose sync_id is the empty string. -/
def cdEmptySyncId : ConfigDeleteInput :=
  { auth_file := some "auth.json", log_db_auth_id := some "db",
    sync_id := some "" }

/-- A cleanup raw input whose sync_id is the empty string. -/
def clEmptySyncId : CleanupInput :=
  { auth_file := some "auth.json", log_db_auth_id := some "db",
    sync_id := some "" }

/-- C9 fails on the code: a required string identifier supplied as the
empty string passes validation (there is no emptiness constraint on
`sync_id` of configuration-delete or cleanup), and the cleanup builder then
emits `--sync_id` followed by the empty token. -/
theorem c9_counterexample_empty_id_accepted :
    (validateConfigDelete cdEmptySyncId).isOk = true
    ∧ (validateCleanup clEmptySyncId).isOk = true
    ∧ buildCleanup "LakeXpress"
        { auth_file := "auth.json", log_db_auth_id := "db", sync_id := "" }
      = ["LakeXpress", "cleanup", "-a", "auth.json", "--log_db_auth_id",
         "db", "--sync_id", ""] :=
  ⟨rfl, rfl, rfl⟩

/-- C9 amended: validation requires the sync/config identifier to be
present (absence fails) but places no emptiness constraint on it — the
empty string is accepted. -/
theorem c9_amended_empty_id_accepted :
    (∀ a l : String,
        (validateConfigDelete
            { auth_file := some a, log_db_auth_id := some l,
              sync_id := some "" }).isOk = true)
    ∧ (∀ a l : String,
        (validateCleanup
            { auth_file := some a, log_db_auth_id := some l,
              sync_id := some "" }).isOk = true)
    ∧ (∀ i : ConfigDeleteInput, i.sync_id = Option.none →
        (validateConfigDelete i).isOk = false)
    ∧ (∀ i : CleanupInput, i.sync_id = Option.none →
        (validateCleanup i).isOk = false) := by
  refine ⟨fun a l => rfl, fun a l => rfl, ?_, ?_⟩
  · intro i h
    rcases haf : i.auth_file with _ | a <;>
      rcases hld : i.log_db_auth_id with _ | d <;>
        simp [validateConfigDelete, haf, hld, h, Except.isOk, Except.toBool]
  · intro i h
    rcases haf : i.auth_file with _ | a <;>
      rcases hld : i.log_db_auth_id with _ | d <;>
        simp [validateCleanup, haf, hld, h, Except.isOk, Except.toBool]

theorem c9_amended_empty_id_accepted_witness :
    (validateConfigDelete
        { auth_file := some "auth.json", log_db_auth_id := some "db",
          sync_id := some "" }).isOk = true
    ∧ (validateConfigDelete
        { auth_file := some "auth.json", log_db_auth_id := some "db" }).isOk
      = false :=
  ⟨c9_amended_empty_id_accepted.1 "auth.json" "db",
   c9_amended_empty_id_accepted.2.2.1
     { auth_file := some "auth.json", log_db_auth_id := some "db" } rfl⟩

/-- C10: for every optional string field of every parameter set, supplying
the empty string is equivalent to omitting the field entirely — each
builder emits no flag token for it (building with the field "" gives the
identical vector as with the field absent, enumerated over every optional
string field of all fourteen builders, the shared log_dir included), and
the configuration-create cross-field checks treat "" as absent for each of
output_dir, target_storage_id and publish_target — in particular
output_dir "" with no target storage id is rejected with the
missing-destination error even though a value was supplied. -/
theorem c10_empty_string_equals_absent :
    (∀ (path : String) (p : LogdbTruncateParams),
        buildLogdbTruncate path { p with sync_id := some "" }
          = buildLogdbTruncate path { p with sync_id := Option.none })
    ∧ (∀ p : ConfigCreateParams,
        p.output_dir = some "" → p.target_storage_id = Option.none →
        configCreateErrors p = [(["config_create"], missingDestMsg)])
    ∧ (∀ (path : String) (p : LogdbInitParams),
        buildLogdbInit path { p with log_dir := some "" }
          = buildLogdbInit path { p with log_dir := Option.none })
    ∧ (∀ (path : String) (p : LogdbDropParams),
        buildLogdbDrop path { p with log_dir := some "" }
          = buildLogdbDrop path { p with log_dir := Option.none })
    ∧ (∀ (path : String) (p : LogdbTruncateParams),
        buildLogdbTruncate path { p with log_dir := some "" }
          = buildLogdbTruncate path { p with log_dir := Option.none })
    ∧ (∀ (path : String) (p : LogdbLocksParams),
        buildLogdbLocks path { p with log_dir := some "" }
          = buildLogdbLocks path { p with log_dir := Option.none })
    ∧ (∀ (path : String) (p : LogdbLocksParams),
        buildLogdbLocks path { p with sync_id := some "" }
          = buildLogdbLocks path { p with sync_id := Option.none })
    ∧ (∀ (path : String) (p : LogdbReleaseLocksParams),
        buildLogdbReleaseLocks path { p with log_dir := some "" }
          = buildLogdbReleaseLocks path { p with log_dir := Option.none })
    ∧ (∀ (path : String) (p : LogdbReleaseLocksParams),
        buildLogdbReleaseLocks path { p with table_id := some "" }
          = buildLogdbReleaseLocks path { p with table_id := Option.none })
    ∧ (∀ (path : String) (p : ConfigCreateParams),
        buildConfigCreate path { p with log_dir := some "" }
          = buildConfigCreate path { p with log_dir := Option.none })
    ∧ (∀ (path : String) (p : ConfigCreateParams),
        buildConfigCreate path { p with source_db_name := some "" }
          = buildConfigCreate path { p with source_db_name := Option.none })
    ∧ (∀ (path : String) (p : ConfigCreateParams),
        buildConfigCreate path { p with source_schema_name := some "" }
          = buildConfigCreate path { p with source_schema_name := Option.none })
    ∧ (∀ (path : String) (p : ConfigCreateParams),
        buildConfigCreate path { p with include_field := some "" }
          = buildConfigCreate path { p with include_field := Option.none })
    ∧ (∀ (path : String) (p : ConfigCreateParams),
        buildConfigCreate path { p with exclude := some "" }
          = buildConfigCreate path { p with exclude := Option.none })
    ∧ (∀ (path : String) (p : ConfigCreateParams),
        buildConfigCreate path { p with output_dir := some "" }
          = buildConfigCreate path { p with output_dir := Option.none })
    ∧ (∀ (path : String) (p : ConfigCreateParams),
        buildConfigCreate path { p with target_storage_id := some "" }
          = buildConfigCreate path { p with target_storage_id := Option.none })
    ∧ (∀ (path : String) (p : ConfigCreateParams),
        buildConfigCreate path { p with sub_path := some "" }
          = buildConfigCreate path { p with sub_path := Option.none })
    ∧ (∀ (path : String) (p : ConfigCreateParams),
        buildConfigCreate path { p with fastbcp_dir_path := some "" }
          = buildConfigCreate path { p with fastbcp_dir_path := Option.none })
    ∧ (∀ (path : String) (p : ConfigCreateParams),
        buildConfigCreate path { p with fastbcp_table_config := some "" }
          = buildConfigCreate path { p with fastbcp_table_config := Option.none })
    ∧ (∀ (path : String) (p : ConfigCreateParams),
        buildConfigCreate path { p with publish_target := some "" }
          = buildConfigCreate path { p with publish_target := Option.none })
    ∧ (∀ (path : String) (p : ConfigCreateParams),
        buildConfigCreate path { p with publish_database_name := some "" }
          = buildConfigCreate path { p with publish_database_name := Option.none })
    ∧ (∀ (path : String) (p : ConfigCreateParams),
        buildConfigCreate path { p with publish_schema_pattern := some "" }
          = buildConfigCreate path { p with publish_schema_pattern := Option.none })
    ∧ (∀ (path : String) (p : ConfigCreateParams),
        buildConfigCreate path { p with publish_table_pattern := some "" }
          = buildConfigCreate path { p with publish_table_pattern := Option.none })
    ∧ (∀ (path : String) (p : ConfigCreateParams),
        buildConfigCreate path { p with manifest_name := some "" }
          = buildConfigCreate path { p with manifest_name := Option.none })
    ∧ (∀ (path : String) (p : ConfigCreateParams),
        buildConfigCreate path { p with sync_id := some "" }
          = buildConfigCreate path { p with sync_id := Option.none })
    ∧ (∀ (path : String) (p : ConfigCreateParams),
        buildConfigCreate path { p with env_name := some "" }
          = buildConfigCreate path { p with env_name := Option.none })
    ∧ (∀ (path : String) (p : ConfigDeleteParams),
        buildConfigDelete path { p with log_dir := some "" }
          = buildConfigDelete path { p with log_dir := Option.none })
    ∧ (∀ (path : String) (p : ConfigListParams),
        buildConfigList path { p with log_dir := some "" }
          = buildConfigList path { p with log_dir := Option.none })
    ∧ (∀ (path : String) (p : ConfigListParams),
        buildConfigList path { p with env_name := some "" }
          = buildConfigList path { p with env_name := Option.none })
    ∧ (∀ (path : String) (p : SyncParams),
        buildSync path { p with sync_id := some "" }
          = buildSync path { p with sync_id := Option.none })
    ∧ (∀ (path : String) (p : SyncParams),
        buildSync path { p with run_id := some "" }
          = buildSync path { p with run_id := Option.none })
    ∧ (∀ (path : String) (p : SyncParams),
        buildSync path { p with auth_file := some "" }
          = buildSync path { p with auth_file := Option.none })
    ∧ (∀ (path : String) (p : SyncParams),
        buildSync path { p with fastbcp_dir_path := some "" }
          = buildSync path { p with fastbcp_dir_path := Option.none })
    ∧ (∀ (path : String) (p : SyncParams),
        buildSync path { p with log_dir := some "" }
          = buildSync path { p with log_dir := Option.none })
    ∧ (∀ (path : String) (p : SyncExportParams),
        buildSyncExport path { p with sync_id := some "" }
          = buildSyncExport path { p with sync_id := Option.none })
    ∧ (∀ (path : String) (p : SyncExportParams),
        buildSyncExport path { p with auth_file := some "" }
          = buildSyncExport path { p with auth_file := Option.none })
    ∧ (∀ (path : String) (p : SyncExportParams),
        buildSyncExport path { p with fastbcp_dir_path := some "" }
          = buildSyncExport path { p with fastbcp_dir_path := Option.none })
    ∧ (∀ (path : String) (p : SyncExportParams),
        buildSyncExport path { p with log_dir := some "" }
          = buildSyncExport path { p with log_dir := Option.none })
    ∧ (∀ (path : String) (p : SyncPublishParams),
        buildSyncPublish path { p with sync_id := some "" }
          = buildSyncPublish path { p with sync_id := Option.none })
    ∧ (∀ (path : String) (p : SyncPublishParams),
        buildSyncPublish path { p with run_id := some "" }
          = buildSyncPublish path { p with run_id := Option.none })
    ∧ (∀ (path : String) (p : SyncPublishParams),
        buildSyncPublish path { p with auth_file := some "" }
          = buildSyncPublish path { p with auth_file := Option.none })
    ∧ (∀ (path : String) (p : SyncPublishParams),
        buildSyncPublish path { p with log_dir := some "" }
          = buildSyncPublish path { p with log_dir := Option.none })
    ∧ (∀ (path : String) (p : RunParams),
        buildRun path { p with auth_file := some "" }
          = buildRun path { p with auth_file := Option.none })
    ∧ (∀ (path : String) (p : RunParams),
        buildRun path { p with log_db_auth_id := some "" }
          = buildRun path { p with log_db_auth_id := Option.none })
    ∧ (∀ (path : String) (p : RunParams),
        buildRun path { p with log_dir := some "" }
          = buildRun path { p with log_dir := Option.none })
    ∧ (∀ (path : String) (p : StatusParams),
        buildStatus path { p with log_dir := some "" }
          = buildStatus path { p with log_dir := Option.none })
    ∧ (∀ (path : String) (p : StatusParams),
        buildStatus path { p with sync_id := some "" }
          = buildStatus path { p with sync_id := Option.none })
    ∧ (∀ (path : String) (p : StatusParams),
        buildStatus path { p with run_id := some "" }
          = buildStatus path { p with run_id := Option.none })
    ∧ (∀ (path : String) (p : CleanupParams),
        buildCleanup path { p with log_dir := some "" }
          = buildCleanup path { p with log_dir := Option.none })
    ∧ (∀ (path : String) (p : CleanupParams),
        buildCleanup path { p with older_than := some "" }
          = buildCleanup path { p with older_than := Option.none })
    ∧ (∀ p : ConfigCreateParams,
        configCreateErrors { p with output_dir := some "" }
          = configCreateErrors { p with output_dir := Option.none })
    ∧ (∀ p : ConfigCreateParams,
        configCreateErrors { p with target_storage_id := some "" }
          = configCreateErrors { p with target_storage_id := Option.none })
    ∧ (∀ p : ConfigCreateParams,
        configCreateErrors { p with publish_target := some "" }
          = configCreateErrors { p with publish_target := Option.none }) := by
  repeat' apply And.intro
  all_goals try (intros; rfl)
  intro p h1 h2
  have hv : validateOutputDestination p = some missingDestMsg := by
    simp [validateOutputDestination, truthyStr, h1, h2]
  simp [configCreateErrors, hv]

theorem c10_empty_string_equals_absent_witness :
    buildLogdbTruncate "LakeXpress"
        { ({ auth_file := "auth.json", log_db_auth_id := "db" } :
            LogdbTruncateParams) with
          sync_id := some "" }
      = buildLogdbTruncate "LakeXpress"
        { ({ auth_file := "auth.json", log_db_auth_id := "db" } :
            LogdbTruncateParams) with
          sync_id := Option.none }
    ∧ configCreateErrors { cxBase with output_dir := some "" }
      = [(["config_create"], missingDestMsg)] :=
  ⟨c10_empty_string_equals_absent.1 "LakeXpress"
     { auth_file := "auth.json", log_db_auth_id := "db" },
   c10_empty_string_equals_absent.2.1 { cxBase with output_dir := some "" }
     rfl rfl⟩
